import Mathlib

/-!
Verification of the gasless-transaction relay submission and confirmation
subsystem (`src/src/relayer/index.ts`, class `RelayerClient`).

The class is a thin wrapper around the external `@polymarket/relayer-client`
package (`RelayClient`) and `ethers.Wallet`.  Everything implemented in the
repository is embedded directly from the TypeScript source; the parts that
live only in the external packages (the `pollUntilState` polling engine, the
key-to-address derivation) are modelled from the specification and are marked
with a doc comment starting `Modelled from the spec:`.

Conventions of the embedding:
- JavaScript `undefined`/optional values become `Option`.
- JavaScript string truthiness (`""` is falsy) is modelled explicitly where
  the source relies on it (`a || b`, `if (!x)`).
- `async` methods that can `throw`/reject become `Except String` values,
  carrying the exact wrapped message the source builds in its catch blocks.
- The relay transport is passed in as an explicit function argument (an
  oracle); submission methods additionally return the list of transport
  invocations they perform, so that claims about "no transport call is made"
  are expressible.
-/

/-- `DEFAULT_RELAYER_URL` constant from the source. -/
def DEFAULT_RELAYER_URL : String := "https://relayer.polymarket.com"

/-- JS `a || b` for an optional string `a`: `a` when present and truthy
(non-empty), otherwise `b`. Used for `config.relayerUrl || DEFAULT_RELAYER_URL`. -/
def jsOrString (a : Option String) (d : String) : String :=
  match a with
  | some s => if s = "" then d else s
  | none => d

/-- JS `a || b` for an optional number `a`: `0` is falsy. Used for
`config.chainId || 137`. -/
def jsOrNat (a : Option Nat) (d : Nat) : Nat :=
  match a with
  | some n => if n = 0 then d else n
  | none => d

/-- JS truthiness filter on an optional string: a present empty string is
falsy, i.e. behaves like an absent value. -/
def strTruthy : Option String → Option String
  | some s => if s = "" then none else some s
  | none => none

/-- JS `a || b` on two optional strings, then truthiness of the result:
`signerAddress || this.walletAddress` followed by `if (!address)`. The result
is `none` exactly when the JS value is falsy. -/
def jsOrOpt (a b : Option String) : Option String :=
  match strTruthy a with
  | some s => some s
  | none => strTruthy b

/-- `config.backend` payload: `{ privateKey: string }` (from the constructor
usage `config.backend?.privateKey`). -/
structure BackendConfig where
  privateKey : String
deriving Repr, DecidableEq

/-- The interactive signer supplied in frontend mode. The source only uses
`typeof signer.getAddress === "function"` and the address that
`signer.getAddress()` eventually resolves to, so the model carries exactly
those two observables. -/
structure SignerModel where
  hasGetAddress : Bool
  address : String
deriving Repr, DecidableEq

/-- `config.frontend` payload: `{ signer }` (from the constructor usage
`config.frontend?.signer`). -/
structure FrontendConfig where
  signer : SignerModel
deriving Repr, DecidableEq

/-- Modelled from the spec: the optional relay credential pair
(`auth: optional relay-specific credential pair`); its concrete field shape is
declared in `../types.js`, which is not part of the repository sources. The
wrapper only forwards it opaquely to the `RelayClient` constructor. -/
structure AuthConfig where
  key : String
  secret : String
deriving Repr, DecidableEq

/-- `RelayerConfig` as used by the constructor: `relayerUrl?`, `chainId?`,
`backend?`, `frontend?`, `auth?`. -/
structure RelayerConfig where
  relayerUrl : Option String
  chainId : Option Nat
  backend : Option BackendConfig
  frontend : Option FrontendConfig
  auth : Option AuthConfig
deriving Repr, DecidableEq

/-- Modelled from the spec: `ethers.Wallet(privateKey).address`, the
synchronous, deterministic derivation of the wallet address from the secret
key (spec section 4.1: "Backend construction is synchronous and total").
The elliptic-curve computation itself is external to the repository; the model
keeps only the properties the spec states: a total deterministic function of
the secret. -/
def deriveWalletAddress (privateKey : String) : String :=
  "0xaddr-of-" ++ privateKey

/-- Which signer object the underlying `RelayClient` was constructed with:
the locally created `ethers.Wallet` (backend branch) or the externally
supplied interactive signer (frontend branch). -/
inductive SignerUsed where
  | localWallet (address : String)
  | frontendSigner
deriving Repr, DecidableEq

/-- The arguments the constructor hands to `new RelayClient(...)`. -/
structure RelayClientInit where
  url : String
  chainId : Nat
  signer : SignerUsed
  auth : Option AuthConfig
deriving Repr, DecidableEq

/-- Errors thrown synchronously by the `RelayerClient` constructor. -/
inductive ConstructError where
  /-- "Relayer configuration must include either backend or frontend mode." -/
  | missingMode
  /-- "Invalid relayer configuration" (mode object present but unusable). -/
  | invalidConfiguration
deriving Repr, DecidableEq

/-- The instance state of a successfully constructed `RelayerClient`:
the stored `config`, the created `RelayClient` (its constructor arguments),
and the mutable `walletAddress` field. -/
structure RelayerClientState where
  config : RelayerConfig
  client : RelayClientInit
  walletAddress : Option String
deriving Repr, DecidableEq

/-- The truthiness test `config.backend?.privateKey`: the private key when the
backend object is present and the key is a non-empty string, else `none`. -/
def backendKey (config : RelayerConfig) : Option String :=
  match config.backend with
  | some b => if b.privateKey = "" then none else some b.privateKey
  | none => none

/-- The `RelayerClient` constructor.  Mirrors the source:
1. `if (!config.backend && !config.frontend) throw` (missing mode);
2. resolve `relayerUrl`/`chainId` defaults via JS `||`;
3. `if (config.backend?.privateKey)` — backend branch: derive the wallet
   address synchronously, set `this.walletAddress`, create the client with the
   local wallet (with `config.auth` forwarded when present);
4. `else if (config.frontend?.signer)` — frontend branch: `walletAddress`
   stays unset (the `signer.getAddress().then(...)` callback fires later, see
   `RelayerClientState.resolveSignerAddress`), create the client with the
   supplied signer;
5. `else throw` (invalid configuration). -/
def RelayerClient.construct (config : RelayerConfig) :
    Except ConstructError RelayerClientState :=
  if config.backend.isNone && config.frontend.isNone then
    Except.error ConstructError.missingMode
  else
    let relayerUrl := jsOrString config.relayerUrl DEFAULT_RELAYER_URL
    let chainId := jsOrNat config.chainId 137
    match backendKey config with
    | some pk =>
      let walletAddress := deriveWalletAddress pk
      Except.ok
        { config := config
          client :=
            { url := relayerUrl
              chainId := chainId
              signer := SignerUsed.localWallet walletAddress
              auth := config.auth }
          walletAddress := some walletAddress }
    | none =>
      match config.frontend with
      | some _ =>
        Except.ok
          { config := config
            client :=
              { url := relayerUrl
                chainId := chainId
                signer := SignerUsed.frontendSigner
                auth := config.auth }
            walletAddress := none }
      | none => Except.error ConstructError.invalidConfiguration

/-- The deferred `signer.getAddress().then((addr) => { this.walletAddress =
addr; })` callback of the frontend branch, as a state transition.  The
subscription exists only when the constructor took the frontend branch and the
signer exposes `getAddress`; otherwise the state is unchanged. -/
def RelayerClientState.resolveSignerAddress (st : RelayerClientState) :
    RelayerClientState :=
  match st.client.signer with
  | SignerUsed.localWallet _ => st
  | SignerUsed.frontendSigner =>
    match st.config.frontend with
    | some f =>
      if f.signer.hasGetAddress then
        { st with walletAddress := some f.signer.address }
      else st
    | none => st

/-- `getWalletAddress(): string | undefined` — returns the `walletAddress`
field as is. -/
def RelayerClient.getWalletAddress (st : RelayerClientState) : Option String :=
  st.walletAddress

/-- Shape of `this.client.getNonce(address, signerType)` responses. -/
structure NonceResponse where
  nonce : String
deriving Repr, DecidableEq

/-- `getNonce(signerAddress?, signerType = "EOA")`.  Mirrors the source:
`address = signerAddress || this.walletAddress`; if falsy, throw
"No wallet address available..."; otherwise query the transport and return
`response.nonce`; every failure is re-wrapped as
"Failed to get nonce: <message>" by the catch block. -/
def RelayerClient.getNonce (st : RelayerClientState)
    (relayGetNonce : String → String → Except String NonceResponse)
    (signerAddress : Option String) (signerType : String) :
    Except String String :=
  let inner : Except String String :=
    match jsOrOpt signerAddress st.walletAddress with
    | none =>
      Except.error
        "No wallet address available. Provide an address or ensure wallet is initialized."
    | some address =>
      match relayGetNonce address signerType with
      | Except.ok response => Except.ok response.nonce
      | Except.error m => Except.error m
  match inner with
  | Except.ok v => Except.ok v
  | Except.error m => Except.error ("Failed to get nonce: " ++ m)

/-- One element of the `transactions` array of `executeProxyTransactions`:
`{ to, typeCode, data, value }` (`to` is a reserved token in Lean, so the
field is called `toAddr` here). -/
structure ProxyTransactionArg where
  toAddr : String
  typeCode : String
  data : String
  value : String
deriving Repr, DecidableEq

/-- One element of the `transactions` array of `executeSafeTransactions`:
`{ to, operation, data, value }` (`to` is a reserved token in Lean, so the
field is called `toAddr` here). -/
structure SafeTransactionArg where
  toAddr : String
  operation : Int
  data : String
  value : String
deriving Repr, DecidableEq

/-- The raw relay response shape the three submission methods read:
`{ transactionID, state, hash, transactionHash }`, any field possibly absent
at runtime. -/
structure RelayRawResponse where
  transactionID : Option String
  state : Option String
  hash : Option String
  transactionHash : Option String
deriving Repr, DecidableEq

/-- `RelayerTransactionResponse` (declared in `../types.js`, not in the
repository sources): the object literal the three submission methods return,
with each field copied verbatim from the raw response, hence possibly
absent. -/
structure RelayerTransactionResponse where
  transactionId : Option String
  state : Option String
  hash : Option String
  transactionHash : Option String
deriving Repr, DecidableEq

/-- The field mapping `{ transactionId: response.transactionID, state, hash,
transactionHash }` that appears verbatim in `executeProxyTransactions`,
`executeSafeTransactions` and `deploySafe` (inlined identically at each call
site in the source). Absent input fields stay absent; nothing is checked. -/
def normalizeRelayResponse (r : RelayRawResponse) : RelayerTransactionResponse :=
  { transactionId := r.transactionID
    state := r.state
    hash := r.hash
    transactionHash := r.transactionHash }

/-- `executeProxyTransactions(transactions, metadata?)`.  The transport is the
oracle `relay`; the second component of the result is the list of transport
invocations performed (the source makes exactly one, unconditionally, with the
arguments forwarded unmodified).  Transport errors are re-wrapped as
"Failed to execute proxy transactions: <message>". -/
def RelayerClient.executeProxyTransactions
    (relay : List ProxyTransactionArg → Option String → Except String RelayRawResponse)
    (transactions : List ProxyTransactionArg) (metadata : Option String) :
    Except String RelayerTransactionResponse ×
      List (List ProxyTransactionArg × Option String) :=
  match relay transactions metadata with
  | Except.ok response => (Except.ok (normalizeRelayResponse response), [(transactions, metadata)])
  | Except.error m =>
    (Except.error ("Failed to execute proxy transactions: " ++ m), [(transactions, metadata)])

/-- `executeSafeTransactions(transactions, metadata?)` — same shape as the
proxy variant, wrapping errors as "Failed to execute safe transactions: ...". -/
def RelayerClient.executeSafeTransactions
    (relay : List SafeTransactionArg → Option String → Except String RelayRawResponse)
    (transactions : List SafeTransactionArg) (metadata : Option String) :
    Except String RelayerTransactionResponse ×
      List (List SafeTransactionArg × Option String) :=
  match relay transactions metadata with
  | Except.ok response => (Except.ok (normalizeRelayResponse response), [(transactions, metadata)])
  | Except.error m =>
    (Except.error ("Failed to execute safe transactions: " ++ m), [(transactions, metadata)])

/-- `deploySafe()` — zero-argument; `relayResponse` is the outcome of the
single `this.client.deploySafe()` transport call; the `Nat` component counts
the transport calls made (always exactly one). Errors are re-wrapped as
"Failed to deploy safe: ...". -/
def RelayerClient.deploySafe (relayResponse : Except String RelayRawResponse) :
    Except String RelayerTransactionResponse × Nat :=
  match relayResponse with
  | Except.ok response => (Except.ok (normalizeRelayResponse response), 1)
  | Except.error m => (Except.error ("Failed to deploy safe: " ++ m), 1)

/-- Modelled from the spec: the canonical `TransactionRecord`
`{id, state, relayHash, chainTransactionHash}` observed by the confirmation
poller (section 3); the poller treats `state` as an opaque string. -/
structure TransactionRecord where
  id : String
  state : String
  relayHash : Option String
  chainTransactionHash : Option String
deriving Repr, DecidableEq

/-- Outcome of one run of the polling engine: the record when a desired state
was reached, the "not reached" sentinel (`undefined` in the source), or a
rejection caused by the external cancellation signal. -/
inductive PollResult where
  | reached (r : TransactionRecord)
  | notReached
  | cancelled
deriving Repr, DecidableEq

/-- Modelled from the spec: the loop of `pollUntilState` from
`@polymarket/relayer-client` (not part of the repository sources), following
the algorithm of spec section 4.3 exactly:
query the record; if its state is in `desired`, return it; if it equals
`failState`, return the sentinel; otherwise, if polls remain, wait (during
which the external cancellation signal may fire — `cancelAt = some k` means it
fires during the wait after the k-th poll, producing the `Cancelled`
rejection) and repeat; with the budget exhausted, return the sentinel.
`relay i` is the record observed by poll number `i + 1`; the second component
of the result is the number of polls performed.  Wall-clock time
(`pollIntervalMs`) is abstracted away. -/
def pollUntilStateAux (relay : Nat → TransactionRecord) (desired : List String)
    (failState : String) (cancelAt : Option Nat) :
    Nat → Nat → PollResult × Nat
  | 0, polls => (PollResult.notReached, polls)
  | budget + 1, polls =>
    let r := relay polls
    if r.state ∈ desired then (PollResult.reached r, polls + 1)
    else if r.state = failState then (PollResult.notReached, polls + 1)
    else if budget = 0 then (PollResult.notReached, polls + 1)
    else if cancelAt = some (polls + 1) then (PollResult.cancelled, polls + 1)
    else pollUntilStateAux relay desired failState cancelAt budget (polls + 1)

/-- Modelled from the spec: `pollUntilState(id, desired, failState, maxPolls,
pollFrequency)` — run the loop with the full budget, starting from zero polls
performed. -/
def pollUntilState (relay : Nat → TransactionRecord) (desired : List String)
    (failState : String) (cancelAt : Option Nat) (maxPolls : Nat) :
    PollResult × Nat :=
  pollUntilStateAux relay desired failState cancelAt maxPolls 0

/-- `waitForTransaction(transactionId, desiredStates = ["STATE_CONFIRMED"],
failState = "STATE_FAILED", maxPolls = 60, pollFrequency = 2000)`.  Omitted
optional arguments are `none`; the TypeScript default-parameter values are
substituted exactly as in the source.  The call delegates to the (modelled)
`pollUntilState`; a resolved sentinel (`undefined`) comes back as `ok none`,
and a rejection — cancellation — is caught and re-wrapped as
"Failed to wait for transaction: <message>".  The second component is the
number of polls performed. -/
def RelayerClient.waitForTransaction (relay : Nat → TransactionRecord)
    (cancelAt : Option Nat) (transactionId : String)
    (desiredStates : Option (List String)) (failState : Option String)
    (maxPolls : Option Nat) (pollFrequency : Option Nat) :
    Except String (Option TransactionRecord) × Nat :=
  let ds := desiredStates.getD ["STATE_CONFIRMED"]
  let fs := failState.getD "STATE_FAILED"
  let mp := maxPolls.getD 60
  let _pf := pollFrequency.getD 2000
  let _id := transactionId
  match pollUntilState relay ds fs cancelAt mp with
  | (PollResult.reached r, n) => (Except.ok (some r), n)
  | (PollResult.notReached, n) => (Except.ok none, n)
  | (PollResult.cancelled, n) =>
    (Except.error "Failed to wait for transaction: Cancelled", n)

/-! ## Helper lemmas about the polling loop -/

/-- While every observed state is non-terminal (neither desired nor the fail
state) and no cancellation fires, the loop consumes its whole budget and ends
in the sentinel, having performed exactly `budget` further polls. -/
lemma pollUntilStateAux_nonterminal (relay : Nat → TransactionRecord)
    (desired : List String) (failState : String)
    (h : ∀ i, (relay i).state ∉ desired ∧ (relay i).state ≠ failState) :
    ∀ budget polls, pollUntilStateAux relay desired failState none budget polls
      = (PollResult.notReached, polls + budget) := by
  intro budget
  induction budget with
  | zero => intro polls; simp [pollUntilStateAux]
  | succ b ih =>
    intro polls
    have h1 : (relay polls).state ∉ desired := (h polls).1
    have h2 : (relay polls).state ≠ failState := (h polls).2
    by_cases hb : b = 0
    · subst hb
      simp [pollUntilStateAux, if_neg h1, if_neg h2]
    · simp only [pollUntilStateAux, if_neg h1, if_neg h2, if_neg hb]
      rw [if_neg (by simp)]
      rw [ih (polls + 1)]
      congr 1
      omega

/-- When cancellation is set to fire during a wait the uncancelled run would
actually reach (the run makes more than `k` polls), the cancelled run stops
with the `Cancelled` rejection after exactly `k` polls. -/
lemma pollUntilStateAux_cancelled (relay : Nat → TransactionRecord)
    (desired : List String) (failState : String) (k : Nat) :
    ∀ budget polls, polls < k →
      k < (pollUntilStateAux relay desired failState none budget polls).2 →
      pollUntilStateAux relay desired failState (some k) budget polls
        = (PollResult.cancelled, k) := by
  intro budget
  induction budget with
  | zero =>
    intro polls h1 h2
    simp only [pollUntilStateAux] at h2
    omega
  | succ b ih =>
    intro polls h1 h2
    by_cases hd : (relay polls).state ∈ desired
    · simp only [pollUntilStateAux, if_pos hd] at h2
      omega
    · by_cases hf : (relay polls).state = failState
      · simp only [pollUntilStateAux, if_neg hd, if_pos hf] at h2
        omega
      · by_cases hb : b = 0
        · simp only [pollUntilStateAux, if_neg hd, if_neg hf, if_pos hb] at h2
          omega
        · simp only [pollUntilStateAux, if_neg hd, if_neg hf, if_neg hb] at h2 ⊢
          rw [if_neg (by simp)] at h2
          by_cases hk : k = polls + 1
          · rw [if_pos (by rw [hk])]
            rw [hk]
          · rw [if_neg (by simpa using hk)]
            exact ih (polls + 1) (by omega) h2

/-! ## Claims -/

/-- C1: `waitForTransaction` polls the relay for the record of the given
transaction id and (a) returns the record as soon as its state is in
`desiredStates` (here: at the very first poll), (b) returns the non-throwing
"not reached" sentinel after a single poll when the observed state equals
`failState`, without consuming the remaining budget, and (c) when the state
stays non-terminal and non-fail, performs exactly `maxPolls` polls and then
returns the sentinel rather than throwing. -/
theorem waitForTransaction_poll_semantics (relay : Nat → TransactionRecord)
    (desired : List String) (failState : String) (maxPolls : Nat) (txId : String)
    (hfail : failState ∉ desired) (hmp : 1 ≤ maxPolls) :
    ((relay 0).state ∈ desired →
      RelayerClient.waitForTransaction relay none txId (some desired)
          (some failState) (some maxPolls) (some 2000)
        = (Except.ok (some (relay 0)), 1))
  ∧ ((∀ i, (relay i).state = failState) →
      RelayerClient.waitForTransaction relay none txId (some desired)
          (some failState) (some maxPolls) (some 2000)
        = (Except.ok none, 1))
  ∧ ((∀ i, (relay i).state ∉ desired ∧ (relay i).state ≠ failState) →
      RelayerClient.waitForTransaction relay none txId (some desired)
          (some failState) (some maxPolls) (some 2000)
        = (Except.ok none, maxPolls)) := by
  obtain ⟨b, rfl⟩ : ∃ b, maxPolls = b + 1 :=
    ⟨maxPolls - 1, by omega⟩
  refine ⟨?_, ?_, ?_⟩
  · intro hs
    simp [RelayerClient.waitForTransaction, pollUntilState, pollUntilStateAux,
      if_pos hs]
  · intro hall
    have hs : (relay 0).state ∉ desired := by
      rw [hall 0]; exact hfail
    have hcomp : pollUntilStateAux relay desired failState none (b + 1) 0
        = (PollResult.notReached, 1) := by
      simp only [pollUntilStateAux, if_neg hs, if_pos (hall 0)]
    simp only [RelayerClient.waitForTransaction, pollUntilState, Option.getD_some]
    rw [hcomp]
  · intro hall
    have hcomp := pollUntilStateAux_nonterminal relay desired failState hall (b + 1) 0
    simp only [RelayerClient.waitForTransaction, pollUntilState, Option.getD_some]
    rw [hcomp]
    simp

/-- C1 witness: a relay stuck at the non-terminal `"STATE_NEW"` with
`maxPolls = 3` yields the sentinel after exactly 3 polls. -/
theorem waitForTransaction_poll_semantics_instance :
    RelayerClient.waitForTransaction
        (fun _ => { id := "tx-1", state := "STATE_NEW", relayHash := none,
                    chainTransactionHash := none })
        none "tx-1" (some ["STATE_CONFIRMED"]) (some "STATE_FAILED") (some 3)
        (some 2000)
      = (Except.ok none, 3) :=
  (waitForTransaction_poll_semantics
      (fun _ => { id := "tx-1", state := "STATE_NEW", relayHash := none,
                  chainTransactionHash := none })
      ["STATE_CONFIRMED"] "STATE_FAILED" 3 "tx-1" (by decide) (by decide)).2.2
    (fun _ => ⟨by decide, by decide⟩)

/-- C7: when the external cancellation signal fires during a wait between
polls that the confirmation loop actually reaches (the uncancelled run would
have performed more than `k` polls), the operation fails — the `Cancelled`
rejection, re-wrapped by the `waitForTransaction` catch block — after exactly
`k` polls, rather than returning the "not reached" sentinel or a
partial/successful result. -/
theorem waitForTransaction_cancellation (relay : Nat → TransactionRecord)
    (desired : List String) (failState : String) (maxPolls k : Nat)
    (txId : String) (hk : 0 < k)
    (hwait : k < (pollUntilState relay desired failState none maxPolls).2) :
    RelayerClient.waitForTransaction relay (some k) txId (some desired)
        (some failState) (some maxPolls) (some 2000)
      = (Except.error "Failed to wait for transaction: Cancelled", k) := by
  have hcomp := pollUntilStateAux_cancelled relay desired failState k maxPolls 0
    hk hwait
  simp only [RelayerClient.waitForTransaction, pollUntilState, Option.getD_some]
  rw [hcomp]

/-- C7 witness: cancelling during the first wait of a 3-poll budget against a
relay stuck at `"STATE_NEW"` yields the wrapped `Cancelled` failure after one
poll. -/
theorem waitForTransaction_cancellation_instance :
    RelayerClient.waitForTransaction
        (fun _ => { id := "tx-1", state := "STATE_NEW", relayHash := none,
                    chainTransactionHash := none })
        (some 1) "tx-1" (some ["STATE_CONFIRMED"]) (some "STATE_FAILED")
        (some 3) (some 2000)
      = (Except.error "Failed to wait for transaction: Cancelled", 1) :=
  waitForTransaction_cancellation
    (fun _ => { id := "tx-1", state := "STATE_NEW", relayHash := none,
                chainTransactionHash := none })
    ["STATE_CONFIRMED"] "STATE_FAILED" 3 1 "tx-1" (by decide) (by decide)

/-- C4 counterexample: under the real defaults, a relay that constantly
reports `"CONFIRMED"` (resp. `"FAILED"`) is treated as non-terminal for all
60 polls and ends in the sentinel — whereas the claimed default
`desiredStates = ["CONFIRMED"]` would accept the very first record, as the
third conjunct shows when that set is passed explicitly.  So the defaults are
not `["CONFIRMED"]`/`"FAILED"`. -/
theorem waitForTransaction_defaults_not_unprefixed :
    RelayerClient.waitForTransaction
        (fun _ => { id := "tx-1", state := "CONFIRMED", relayHash := none,
                    chainTransactionHash := none })
        none "tx-1" none none none none
      = (Except.ok none, 60)
  ∧ RelayerClient.waitForTransaction
        (fun _ => { id := "tx-1", state := "FAILED", relayHash := none,
                    chainTransactionHash := none })
        none "tx-1" none none none none
      = (Except.ok none, 60)
  ∧ RelayerClient.waitForTransaction
        (fun _ => { id := "tx-1", state := "CONFIRMED", relayHash := none,
                    chainTransactionHash := none })
        none "tx-1" (some ["CONFIRMED"]) none none none
      = (Except.ok
          (some { id := "tx-1", state := "CONFIRMED", relayHash := none,
                  chainTransactionHash := none }), 1) :=
  ⟨rfl, rfl, rfl⟩

/-- C4 (amended): calling `waitForTransaction` with every optional parameter
omitted behaves exactly as calling it with
`desiredStates = ["STATE_CONFIRMED"]`, `failState = "STATE_FAILED"`,
`maxPolls = 60`, `pollIntervalMs = 2000` — the TypeScript default parameter
values of the source. -/
theorem waitForTransaction_default_arguments (relay : Nat → TransactionRecord)
    (cancelAt : Option Nat) (txId : String) :
    RelayerClient.waitForTransaction relay cancelAt txId none none none none
      = RelayerClient.waitForTransaction relay cancelAt txId
          (some ["STATE_CONFIRMED"]) (some "STATE_FAILED") (some 60)
          (some 2000) := rfl

/-- C2 counterexample: `executeProxyTransactions` with an empty calls array is
not rejected — it makes the transport call (with the empty array forwarded)
and returns whatever the relay answers. -/
theorem executeProxyTransactions_empty_not_rejected :
    RelayerClient.executeProxyTransactions
        (fun _ _ => Except.ok
          { transactionID := some "tx-1", state := some "STATE_NEW",
            hash := none, transactionHash := none })
        [] none
      = (Except.ok
          { transactionId := some "tx-1", state := some "STATE_NEW",
            hash := none, transactionHash := none },
         [([], none)]) := rfl

/-- C2 (amended): `executeProxyTransactions` performs no client-side
validation of the calls array: for every calls list — the empty one included —
and every metadata value, exactly one transport call is made, with the calls
and metadata forwarded unmodified, and the relay's answer is returned
(normalized on success, re-wrapped with context on error). -/
theorem executeProxyTransactions_forwards_unvalidated
    (relay : List ProxyTransactionArg → Option String →
      Except String RelayRawResponse)
    (transactions : List ProxyTransactionArg) (metadata : Option String) :
    (RelayerClient.executeProxyTransactions relay transactions metadata).2
      = [(transactions, metadata)]
  ∧ (∀ r, relay transactions metadata = Except.ok r →
      (RelayerClient.executeProxyTransactions relay transactions metadata).1
        = Except.ok (normalizeRelayResponse r))
  ∧ (∀ m, relay transactions metadata = Except.error m →
      (RelayerClient.executeProxyTransactions relay transactions metadata).1
        = Except.error ("Failed to execute proxy transactions: " ++ m)) := by
  refine ⟨?_, ?_, ?_⟩
  · unfold RelayerClient.executeProxyTransactions
    cases relay transactions metadata <;> rfl
  · intro r hr
    unfold RelayerClient.executeProxyTransactions
    rw [hr]
  · intro m hm
    unfold RelayerClient.executeProxyTransactions
    rw [hm]

/-- C2 witness: instantiation of the forwarding theorem at the empty calls
array — one transport call carrying `[]`, successful relay answer returned
normalized. -/
theorem executeProxyTransactions_forwards_unvalidated_instance :
    (RelayerClient.executeProxyTransactions
        (fun _ _ => Except.ok
          { transactionID := some "tx-2", state := some "STATE_NEW",
            hash := none, transactionHash := none })
        [] (some "meta")).2
      = [([], some "meta")]
  ∧ (RelayerClient.executeProxyTransactions
        (fun _ _ => Except.ok
          { transactionID := some "tx-2", state := some "STATE_NEW",
            hash := none, transactionHash := none })
        [] (some "meta")).1
      = Except.ok
          { transactionId := some "tx-2", state := some "STATE_NEW",
            hash := none, transactionHash := none } :=
  ⟨(executeProxyTransactions_forwards_unvalidated
      (fun _ _ => Except.ok
        { transactionID := some "tx-2", state := some "STATE_NEW",
          hash := none, transactionHash := none })
      [] (some "meta")).1,
   (executeProxyTransactions_forwards_unvalidated
      (fun _ _ => Except.ok
        { transactionID := some "tx-2", state := some "STATE_NEW",
          hash := none, transactionHash := none })
      [] (some "meta")).2.1
      { transactionID := some "tx-2", state := some "STATE_NEW",
        hash := none, transactionHash := none } rfl⟩

/-- C3 counterexample: a relay response with the identifier field absent does
not make `deploySafe` fail with a `MalformedRelayResponse` error — the call
succeeds and the normalized record simply carries an absent `transactionId`. -/
theorem deploySafe_missing_id_not_rejected :
    RelayerClient.deploySafe
        (Except.ok
          { transactionID := none, state := some "STATE_NEW",
            hash := none, transactionHash := none })
      = (Except.ok
          { transactionId := none, state := some "STATE_NEW",
            hash := none, transactionHash := none }, 1) := rfl

/-- C3 (amended): for every relay response to any of the three submission
operations, every absent field — the identifier included — maps to an absent
value in the normalized `TransactionRecord`-shaped result, and the operation
succeeds rather than throwing; no `MalformedRelayResponse` error exists in the
code, so a missing `id` is silently defaulted. -/
theorem submission_normalization_total (r : RelayRawResponse)
    (relayP : List ProxyTransactionArg → Option String →
      Except String RelayRawResponse)
    (relayS : List SafeTransactionArg → Option String →
      Except String RelayRawResponse)
    (txsP : List ProxyTransactionArg) (txsS : List SafeTransactionArg)
    (mdP mdS : Option String)
    (hp : relayP txsP mdP = Except.ok r)
    (hs : relayS txsS mdS = Except.ok r) :
    (RelayerClient.executeProxyTransactions relayP txsP mdP).1
      = Except.ok (normalizeRelayResponse r)
  ∧ (RelayerClient.executeSafeTransactions relayS txsS mdS).1
      = Except.ok (normalizeRelayResponse r)
  ∧ (RelayerClient.deploySafe (Except.ok r)).1
      = Except.ok (normalizeRelayResponse r)
  ∧ (normalizeRelayResponse r).transactionId = r.transactionID
  ∧ (normalizeRelayResponse r).state = r.state
  ∧ (normalizeRelayResponse r).hash = r.hash
  ∧ (normalizeRelayResponse r).transactionHash = r.transactionHash := by
  refine ⟨?_, ?_, rfl, rfl, rfl, rfl, rfl⟩
  · unfold RelayerClient.executeProxyTransactions
    rw [hp]
  · unfold RelayerClient.executeSafeTransactions
    rw [hs]

/-- C3 witness: instantiation at a response with only `state` present — all
three submission operations succeed with every other field absent. -/
theorem submission_normalization_total_instance :
    (RelayerClient.executeProxyTransactions
        (fun _ _ => Except.ok
          { transactionID := none, state := some "STATE_NEW",
            hash := none, transactionHash := none })
        [] none).1
      = Except.ok
          { transactionId := none, state := some "STATE_NEW",
            hash := none, transactionHash := none }
  ∧ (RelayerClient.deploySafe
        (Except.ok
          { transactionID := none, state := some "STATE_NEW",
            hash := none, transactionHash := none })).1
      = Except.ok
          { transactionId := none, state := some "STATE_NEW",
            hash := none, transactionHash := none } :=
  ⟨(submission_normalization_total
      { transactionID := none, state := some "STATE_NEW",
        hash := none, transactionHash := none }
      (fun _ _ => Except.ok
        { transactionID := none, state := some "STATE_NEW",
          hash := none, transactionHash := none })
      (fun _ _ => Except.ok
        { transactionID := none, state := some "STATE_NEW",
          hash := none, transactionHash := none })
      [] [] none none rfl rfl).1,
   (submission_normalization_total
      { transactionID := none, state := some "STATE_NEW",
        hash := none, transactionHash := none }
      (fun _ _ => Except.ok
        { transactionID := none, state := some "STATE_NEW",
          hash := none, transactionHash := none })
      (fun _ _ => Except.ok
        { transactionID := none, state := some "STATE_NEW",
          hash := none, transactionHash := none })
      [] [] none none rfl rfl).2.2.1⟩

/-- C5: a configuration with neither `backend` nor `frontend` set makes the
constructor fail synchronously with the missing-mode configuration error; the
`Except.error` result contains no constructed client state, so no
`RelayClient` is created. -/
theorem construct_requires_signing_mode (config : RelayerConfig)
    (hb : config.backend = none) (hf : config.frontend = none) :
    RelayerClient.construct config
      = Except.error ConstructError.missingMode := by
  simp [RelayerClient.construct, hb, hf]

/-- C5 witness: the fully-empty configuration is rejected at construction. -/
theorem construct_requires_signing_mode_instance :
    RelayerClient.construct
        { relayerUrl := none, chainId := none, backend := none,
          frontend := none, auth := none }
      = Except.error ConstructError.missingMode :=
  construct_requires_signing_mode
    { relayerUrl := none, chainId := none, backend := none,
      frontend := none, auth := none } rfl rfl

/-- Evaluation of the constructor on a configuration whose backend mode is
usable (`config.backend?.privateKey` truthy): the backend branch is taken
regardless of whether a frontend signer is also present. -/
lemma construct_backend_eq (cfg : RelayerConfig) (b : BackendConfig)
    (hb : cfg.backend = some b) (hpk : b.privateKey ≠ "") :
    RelayerClient.construct cfg = Except.ok
      { config := cfg
        client :=
          { url := jsOrString cfg.relayerUrl DEFAULT_RELAYER_URL
            chainId := jsOrNat cfg.chainId 137
            signer := SignerUsed.localWallet (deriveWalletAddress b.privateKey)
            auth := cfg.auth }
        walletAddress := some (deriveWalletAddress b.privateKey) } := by
  simp [RelayerClient.construct, backendKey, hb, hpk]

/-- Evaluation of the constructor on a frontend-only configuration: the
client is created with the supplied signer and `walletAddress` starts
unset. -/
lemma construct_frontend_eq (cfg : RelayerConfig) (f : FrontendConfig)
    (hb : cfg.backend = none) (hf : cfg.frontend = some f) :
    RelayerClient.construct cfg = Except.ok
      { config := cfg
        client :=
          { url := jsOrString cfg.relayerUrl DEFAULT_RELAYER_URL
            chainId := jsOrNat cfg.chainId 137
            signer := SignerUsed.frontendSigner
            auth := cfg.auth }
        walletAddress := none } := by
  simp [RelayerClient.construct, backendKey, hb, hf]

/-- C6: `getNonce` with the address argument omitted falls back to the
configured signer's resolved address.  Under frontend mode, before the
asynchronous address resolution completes the call fails with the
no-address-available error (wrapped by the catch block); after resolution an
identical call succeeds and returns the relay-reported nonce. -/
theorem getNonce_frontend_resolution (cfg : RelayerConfig)
    (st : RelayerClientState)
    (relayGetNonce : String → String → Except String NonceResponse)
    (f : FrontendConfig) (n : String)
    (hb : cfg.backend = none) (hf : cfg.frontend = some f)
    (hc : RelayerClient.construct cfg = Except.ok st)
    (hg : f.signer.hasGetAddress = true) (ha : f.signer.address ≠ "")
    (hr : relayGetNonce f.signer.address "EOA" = Except.ok { nonce := n }) :
    RelayerClient.getNonce st relayGetNonce none "EOA"
        = Except.error "Failed to get nonce: No wallet address available. Provide an address or ensure wallet is initialized."
  ∧ RelayerClient.getNonce st.resolveSignerAddress relayGetNonce none "EOA"
        = Except.ok n := by
  rw [construct_frontend_eq cfg f hb hf] at hc
  have hst := (Except.ok.injEq _ _).mp hc
  subst hst
  constructor
  · rfl
  · simp [RelayerClientState.resolveSignerAddress, hf, hg,
      RelayerClient.getNonce, jsOrOpt, strTruthy, ha, hr]

/-- C6 witness: a concrete frontend-mode client — `getNonce()` fails before
resolution and returns the relay-reported nonce `"7"` afterwards. -/
theorem getNonce_frontend_resolution_instance :
    RelayerClient.getNonce
        { config :=
            { relayerUrl := none, chainId := none, backend := none
              frontend := some { signer := { hasGetAddress := true, address := "0xF" } }
              auth := none }
          client :=
            { url := DEFAULT_RELAYER_URL, chainId := 137
              signer := SignerUsed.frontendSigner, auth := none }
          walletAddress := none }
        (fun _ _ => Except.ok { nonce := "7" }) none "EOA"
      = Except.error "Failed to get nonce: No wallet address available. Provide an address or ensure wallet is initialized."
  ∧ RelayerClient.getNonce
        (RelayerClientState.resolveSignerAddress
          { config :=
              { relayerUrl := none, chainId := none, backend := none
                frontend := some { signer := { hasGetAddress := true, address := "0xF" } }
                auth := none }
            client :=
              { url := DEFAULT_RELAYER_URL, chainId := 137
                signer := SignerUsed.frontendSigner, auth := none }
            walletAddress := none })
        (fun _ _ => Except.ok { nonce := "7" }) none "EOA"
      = Except.ok "7" :=
  getNonce_frontend_resolution
    { relayerUrl := none, chainId := none, backend := none
      frontend := some { signer := { hasGetAddress := true, address := "0xF" } }
      auth := none }
    { config :=
        { relayerUrl := none, chainId := none, backend := none
          frontend := some { signer := { hasGetAddress := true, address := "0xF" } }
          auth := none }
      client :=
        { url := DEFAULT_RELAYER_URL, chainId := 137
          signer := SignerUsed.frontendSigner, auth := none }
      walletAddress := none }
    (fun _ _ => Except.ok { nonce := "7" })
    { signer := { hasGetAddress := true, address := "0xF" } } "7"
    rfl rfl rfl rfl (by decide) rfl

/-- C8: constructing the client in backend mode derives the wallet address
synchronously (the constructor is a pure function of the configuration) and
deterministically: two constructions from the same secret key both succeed and
yield the same address, and that address matches the independent derivation
`deriveWalletAddress` applied to the same secret. -/
theorem backend_address_deterministic (c1 c2 : RelayerConfig) (pk : String)
    (h1 : c1.backend = some { privateKey := pk })
    (h2 : c2.backend = some { privateKey := pk }) (hpk : pk ≠ "") :
    ∃ s1 s2, RelayerClient.construct c1 = Except.ok s1
      ∧ RelayerClient.construct c2 = Except.ok s2
      ∧ s1.walletAddress = some (deriveWalletAddress pk)
      ∧ s2.walletAddress = some (deriveWalletAddress pk)
      ∧ s1.walletAddress = s2.walletAddress := by
  refine ⟨_, _, construct_backend_eq c1 { privateKey := pk } h1 hpk,
    construct_backend_eq c2 { privateKey := pk } h2 hpk, rfl, rfl, rfl⟩

/-- C8 witness: two constructions from the secret `"0xsecret"` agree on the
derived address. -/
theorem backend_address_deterministic_instance :
    ∃ s1 s2,
      RelayerClient.construct
          { relayerUrl := none, chainId := none
            backend := some { privateKey := "0xsecret" }
            frontend := none, auth := none }
        = Except.ok s1
      ∧ RelayerClient.construct
          { relayerUrl := none, chainId := none
            backend := some { privateKey := "0xsecret" }
            frontend := none, auth := none }
        = Except.ok s2
      ∧ s1.walletAddress = some (deriveWalletAddress "0xsecret")
      ∧ s2.walletAddress = some (deriveWalletAddress "0xsecret")
      ∧ s1.walletAddress = s2.walletAddress :=
  backend_address_deterministic
    { relayerUrl := none, chainId := none
      backend := some { privateKey := "0xsecret" }
      frontend := none, auth := none }
    { relayerUrl := none, chainId := none
      backend := some { privateKey := "0xsecret" }
      frontend := none, auth := none }
    "0xsecret" rfl rfl (by decide)

/-- C9: when both a usable backend (private key) and a frontend signer are
configured, construction succeeds and the backend branch deterministically
takes precedence: the address is derived from the private key and the
`RelayClient` is created with the local wallet; the frontend signer is
ignored. -/
theorem backend_precedence_over_frontend (cfg : RelayerConfig)
    (b : BackendConfig) (f : FrontendConfig)
    (hb : cfg.backend = some b) (hf : cfg.frontend = some f)
    (hpk : b.privateKey ≠ "") :
    RelayerClient.construct cfg = Except.ok
      { config := cfg
        client :=
          { url := jsOrString cfg.relayerUrl DEFAULT_RELAYER_URL
            chainId := jsOrNat cfg.chainId 137
            signer := SignerUsed.localWallet (deriveWalletAddress b.privateKey)
            auth := cfg.auth }
        walletAddress := some (deriveWalletAddress b.privateKey) } := by
  simp [RelayerClient.construct, backendKey, hb, hf, hpk]

/-- C9 witness: with both modes set, the constructed client uses the local
wallet derived from the private key, not the frontend signer. -/
theorem backend_precedence_over_frontend_instance :
    RelayerClient.construct
        { relayerUrl := none, chainId := none
          backend := some { privateKey := "0xsecret" }
          frontend := some { signer := { hasGetAddress := true, address := "0xF" } }
          auth := none }
      = Except.ok
        { config :=
            { relayerUrl := none, chainId := none
              backend := some { privateKey := "0xsecret" }
              frontend := some { signer := { hasGetAddress := true, address := "0xF" } }
              auth := none }
          client :=
            { url := DEFAULT_RELAYER_URL, chainId := 137
              signer := SignerUsed.localWallet (deriveWalletAddress "0xsecret")
              auth := none }
          walletAddress := some (deriveWalletAddress "0xsecret") } :=
  backend_precedence_over_frontend
    { relayerUrl := none, chainId := none
      backend := some { privateKey := "0xsecret" }
      frontend := some { signer := { hasGetAddress := true, address := "0xF" } }
      auth := none }
    { privateKey := "0xsecret" }
    { signer := { hasGetAddress := true, address := "0xF" } }
    rfl rfl (by decide)

/-- C10: after a backend-mode construction, `getWalletAddress()` returns the
derived address (never absent) and the address-resolution transition leaves it
unchanged; after a frontend-mode construction, `getWalletAddress()` is absent
until the signer's asynchronous address resolution completes, after which it
returns the resolved address; re-applying the resolution transition changes
nothing further (the set-once-read-many discipline of the single resolution
callback). -/
theorem getWalletAddress_write_once (cfg : RelayerConfig)
    (st : RelayerClientState)
    (hc : RelayerClient.construct cfg = Except.ok st) :
    (∀ b, cfg.backend = some b → b.privateKey ≠ "" →
        RelayerClient.getWalletAddress st
            = some (deriveWalletAddress b.privateKey)
      ∧ RelayerClient.getWalletAddress st.resolveSignerAddress
            = RelayerClient.getWalletAddress st)
  ∧ (∀ f, cfg.backend = none → cfg.frontend = some f →
        f.signer.hasGetAddress = true →
        RelayerClient.getWalletAddress st = none
      ∧ RelayerClient.getWalletAddress st.resolveSignerAddress
            = some f.signer.address
      ∧ st.resolveSignerAddress.resolveSignerAddress
            = st.resolveSignerAddress) := by
  constructor
  · intro b hb hpk
    rw [construct_backend_eq cfg b hb hpk] at hc
    have hst := (Except.ok.injEq _ _).mp hc
    subst hst
    exact ⟨rfl, rfl⟩
  · intro f hb hf hg
    rw [construct_frontend_eq cfg f hb hf] at hc
    have hst := (Except.ok.injEq _ _).mp hc
    subst hst
    refine ⟨rfl, ?_, ?_⟩
    · simp [RelayerClientState.resolveSignerAddress, hf, hg,
        RelayerClient.getWalletAddress]
    · simp [RelayerClientState.resolveSignerAddress, hf, hg]

/-- C10 witness: a concrete frontend-mode client reads as unresolved before
the resolution transition, as the signer's address afterwards, and a second
resolution changes nothing. -/
theorem getWalletAddress_write_once_instance :
    RelayerClient.getWalletAddress
        { config :=
            { relayerUrl := none, chainId := none, backend := none
              frontend := some { signer := { hasGetAddress := true, address := "0xABCD" } }
              auth := none }
          client :=
            { url := DEFAULT_RELAYER_URL, chainId := 137
              signer := SignerUsed.frontendSigner, auth := none }
          walletAddress := none }
      = none
  ∧ RelayerClient.getWalletAddress
        (RelayerClientState.resolveSignerAddress
          { config :=
              { relayerUrl := none, chainId := none, backend := none
                frontend := some { signer := { hasGetAddress := true, address := "0xABCD" } }
                auth := none }
            client :=
              { url := DEFAULT_RELAYER_URL, chainId := 137
                signer := SignerUsed.frontendSigner, auth := none }
            walletAddress := none })
      = some "0xABCD"
  ∧ (RelayerClientState.resolveSignerAddress
        (RelayerClientState.resolveSignerAddress
          { config :=
              { relayerUrl := none, chainId := none, backend := none
                frontend := some { signer := { hasGetAddress := true, address := "0xABCD" } }
                auth := none }
            client :=
              { url := DEFAULT_RELAYER_URL, chainId := 137
                signer := SignerUsed.frontendSigner, auth := none }
            walletAddress := none }))
      = RelayerClientState.resolveSignerAddress
          { config :=
              { relayerUrl := none, chainId := none, backend := none
                frontend := some { signer := { hasGetAddress := true, address := "0xABCD" } }
                auth := none }
            client :=
              { url := DEFAULT_RELAYER_URL, chainId := 137
                signer := SignerUsed.frontendSigner, auth := none }
            walletAddress := none } :=
  (getWalletAddress_write_once
    { relayerUrl := none, chainId := none, backend := none
      frontend := some { signer := { hasGetAddress := true, address := "0xABCD" } }
      auth := none }
    { config :=
        { relayerUrl := none, chainId := none, backend := none
          frontend := some { signer := { hasGetAddress := true, address := "0xABCD" } }
          auth := none }
      client :=
        { url := DEFAULT_RELAYER_URL, chainId := 137
          signer := SignerUsed.frontendSigner, auth := none }
      walletAddress := none }
    rfl).2
    { signer := { hasGetAddress := true, address := "0xABCD" } }
    rfl rfl rfl
